import Mathlib

/-!
# Shallow embedding of the chip8-rust CHIP-8 core (src/chip8.rs)

The Rust `struct Chip8` and its methods are translated into Lean.
Machine integers become `Nat` with explicit reductions where Rust
wraps: `u8` writes take `% 256`, `u16` writes take `% 65536`.
Bit-mask/shift operand extraction is rendered arithmetically:
`x & 0x0FFF = x % 4096`, `x & 0x00FF = x % 256`, `x & 0x000F = x % 16`,
`(x & 0x0F00) >> 8 = x / 256 % 16`, `(x & 0x00F0) >> 4 = x / 16 % 16`,
`(x & 0xF000)` compared against family constants becomes `x / 4096 % 16`
compared against the family nibble (these identities hold for every
natural number).  Arrays indexed by `usize` become total functions
`Nat → Nat`; the Rust `rand::random::<u8>()` in `rnd_vx_byte` is passed
in as an explicit parameter of `execute_cycle`.
-/

/-- Mirror of `struct Chip8` in src/chip8.rs. -/
structure Chip8 where
  memory : Nat → Nat
  pc : Nat
  instr : Nat
  v : Nat → Nat
  index : Nat
  stack : Nat → Nat
  sp : Nat
  dt : Nat
  st : Nat
  fb : Nat → Nat

/-- Pointwise array update, modelling `a[i] = x` on a Rust array. -/
def upd (f : Nat → Nat) (i x : Nat) : Nat → Nat :=
  fun j => if j = i then x else f j

/-- 8-bit wrapping subtraction, modelling `a - b` on Rust `u8`
(release-mode two's-complement wrap). -/
def sub8 (a b : Nat) : Nat :=
  (a % 256 + 256 - b % 256) % 256

namespace Chip8

/-- `fn cls` (0x00E0): clear the display. -/
def cls (s : Chip8) : Chip8 :=
  { s with fb := fun _ => 0, pc := (s.pc + 2) % 65536 }

/-- `fn ret` (0x00EE): `pc = stack[sp]; sp -= 1`. -/
def ret (s : Chip8) : Chip8 :=
  { s with pc := s.stack s.sp, sp := sub8 s.sp 1 }

/-- `fn jp_addr` (0x1NNN): `pc = instr & 0x0FFF`. -/
def jp_addr (s : Chip8) : Chip8 :=
  { s with pc := s.instr % 4096 }

/-- `fn call_addr` (0x2NNN): `sp += 1; stack[sp] = pc; pc = instr & 0x0FFF`. -/
def call_addr (s : Chip8) : Chip8 :=
  let sp' := (s.sp + 1) % 256
  { s with sp := sp', stack := upd s.stack sp' s.pc, pc := s.instr % 4096 }

/-- `fn se_vx_byte` (0x3XNN): skip next instruction if `v[X] == NN`. -/
def se_vx_byte (s : Chip8) : Chip8 :=
  let reg := s.instr / 256 % 16
  let byte := s.instr % 256
  if s.v reg = byte then { s with pc := (s.pc + 4) % 65536 }
  else { s with pc := (s.pc + 2) % 65536 }

/-- `fn sne_vx_byte` (0x4XNN): skip next instruction if `v[X] != NN`. -/
def sne_vx_byte (s : Chip8) : Chip8 :=
  let reg := s.instr / 256 % 16
  let byte := s.instr % 256
  if s.v reg ≠ byte then { s with pc := (s.pc + 4) % 65536 }
  else { s with pc := (s.pc + 2) % 65536 }

/-- `fn se_vx_vy` (0x5XY0): skip next instruction if `v[X] == v[Y]`. -/
def se_vx_vy (s : Chip8) : Chip8 :=
  let reg_x := s.instr / 256 % 16
  let reg_y := s.instr / 16 % 16
  if s.v reg_x = s.v reg_y then { s with pc := (s.pc + 4) % 65536 }
  else { s with pc := (s.pc + 2) % 65536 }

/-- `fn ld_vx_byte` (0x6XNN): `v[X] = NN`. -/
def ld_vx_byte (s : Chip8) : Chip8 :=
  let reg := s.instr / 256 % 16
  { s with v := upd s.v reg (s.instr % 256), pc := (s.pc + 2) % 65536 }

/-- `fn add_vx_byte` (0x7XNN): `v[X] += NN` (u8 wrap). -/
def add_vx_byte (s : Chip8) : Chip8 :=
  let reg := s.instr / 256 % 16
  { s with v := upd s.v reg ((s.v reg + s.instr % 256) % 256),
           pc := (s.pc + 2) % 65536 }

/-- `fn ld_vx_vy` (0x8XY0): `v[X] = v[Y]`. -/
def ld_vx_vy (s : Chip8) : Chip8 :=
  let reg_x := s.instr / 256 % 16
  let reg_y := s.instr / 16 % 16
  { s with v := upd s.v reg_x (s.v reg_y), pc := (s.pc + 2) % 65536 }

/-- `fn or_vx_vy` (0x8XY1): `v[X] |= v[Y]`. -/
def or_vx_vy (s : Chip8) : Chip8 :=
  let reg_x := s.instr / 256 % 16
  let reg_y := s.instr / 16 % 16
  { s with v := upd s.v reg_x (Nat.lor (s.v reg_x) (s.v reg_y)),
           pc := (s.pc + 2) % 65536 }

/-- `fn and_vx_vy` (0x8XY2): `v[X] &= v[Y]`. -/
def and_vx_vy (s : Chip8) : Chip8 :=
  let reg_x := s.instr / 256 % 16
  let reg_y := s.instr / 16 % 16
  { s with v := upd s.v reg_x (Nat.land (s.v reg_x) (s.v reg_y)),
           pc := (s.pc + 2) % 65536 }

/-- `fn xor_vx_vy` (0x8XY3): `v[X] ^= v[Y]`. -/
def xor_vx_vy (s : Chip8) : Chip8 :=
  let reg_x := s.instr / 256 % 16
  let reg_y := s.instr / 16 % 16
  { s with v := upd s.v reg_x (Nat.xor (s.v reg_x) (s.v reg_y)),
           pc := (s.pc + 2) % 65536 }

/-- `fn add_vx_vy` (0x8XY4).  The source branches on
`(v[X] as u16) + (v[Y] as u16) > 0xFF`: the overflow branch SATURATES
(`v[X] = 0xFF; v[F] = 1`), the other branch adds (`v[X] += v[Y]`,
no wrap possible) and clears `v[F]`. -/
def add_vx_vy (s : Chip8) : Chip8 :=
  let reg_x := s.instr / 256 % 16
  let reg_y := s.instr / 16 % 16
  if s.v reg_x + s.v reg_y > 0xFF then
    { s with v := upd (upd s.v reg_x 0xFF) 0xF 1, pc := (s.pc + 2) % 65536 }
  else
    { s with v := upd (upd s.v reg_x ((s.v reg_x + s.v reg_y) % 256)) 0xF 0,
             pc := (s.pc + 2) % 65536 }

/-- `fn sub_vx_vy` (0x8XY5).  The source branches on
`v[X] - v[Y] > 0` (u8 wrapping subtraction): if so, `v[X] -= v[Y]`
and `v[F] = 0`; otherwise (the values are equal) `v[X] = v[Y] - v[X]`
and `v[F] = 1`. -/
def sub_vx_vy (s : Chip8) : Chip8 :=
  let reg_x := s.instr / 256 % 16
  let reg_y := s.instr / 16 % 16
  if sub8 (s.v reg_x) (s.v reg_y) > 0 then
    { s with v := upd (upd s.v reg_x (sub8 (s.v reg_x) (s.v reg_y))) 0xF 0,
             pc := (s.pc + 2) % 65536 }
  else
    { s with v := upd (upd s.v reg_x (sub8 (s.v reg_y) (s.v reg_x))) 0xF 1,
             pc := (s.pc + 2) % 65536 }

/-- `fn shr_vx` (0x8XY6): `v[F] = v[X] & 1` then `v[X] >>= 1`
(the second line reads `v[reg_x]` after the first write). -/
def shr_vx (s : Chip8) : Chip8 :=
  let reg_x := s.instr / 256 % 16
  let v1 := upd s.v 0xF (s.v reg_x % 2)
  { s with v := upd v1 reg_x (v1 reg_x / 2), pc := (s.pc + 2) % 65536 }

/-- `fn subn_vx_vy` (0x8XY7): mirror image of `sub_vx_vy`. -/
def subn_vx_vy (s : Chip8) : Chip8 :=
  let reg_x := s.instr / 256 % 16
  let reg_y := s.instr / 16 % 16
  if sub8 (s.v reg_y) (s.v reg_x) > 0 then
    { s with v := upd (upd s.v reg_x (sub8 (s.v reg_y) (s.v reg_x))) 0xF 1,
             pc := (s.pc + 2) % 65536 }
  else
    { s with v := upd (upd s.v reg_x (sub8 (s.v reg_x) (s.v reg_y))) 0xF 0,
             pc := (s.pc + 2) % 65536 }

/-- `fn shl_vx` (0x8XYE): `v[F] = v[X] & 0x80` then `v[X] <<= 1` (u8 wrap;
the second line reads `v[reg_x]` after the first write). -/
def shl_vx (s : Chip8) : Chip8 :=
  let reg_x := s.instr / 256 % 16
  let v1 := upd s.v 0xF (Nat.land (s.v reg_x) 0x80)
  { s with v := upd v1 reg_x (v1 reg_x * 2 % 256), pc := (s.pc + 2) % 65536 }

/-- `fn sne_vx_vy` (0x9XY0): skip next instruction if `v[X] != v[Y]`. -/
def sne_vx_vy (s : Chip8) : Chip8 :=
  let reg_x := s.instr / 256 % 16
  let reg_y := s.instr / 16 % 16
  if s.v reg_x ≠ s.v reg_y then { s with pc := (s.pc + 4) % 65536 }
  else { s with pc := (s.pc + 2) % 65536 }

/-- `fn ld_index_addr` (0xANNN): `index = instr & 0x0FFF`. -/
def ld_index_addr (s : Chip8) : Chip8 :=
  { s with index := s.instr % 4096, pc := (s.pc + 2) % 65536 }

/-- `fn jp_v0_addr` (0xBNNN): `pc = (instr & 0x0FFF) + v[0]`. -/
def jp_v0_addr (s : Chip8) : Chip8 :=
  { s with pc := (s.instr % 4096 + s.v 0) % 65536 }

/-- `fn rnd_vx_byte` (0xCXNN): `v[X] = random_byte & NN`; the random byte
is supplied as the parameter `rnd`. -/
def rnd_vx_byte (rnd : Nat) (s : Chip8) : Chip8 :=
  let reg := s.instr / 256 % 16
  { s with v := upd s.v reg (Nat.land rnd (s.instr % 256)),
           pc := (s.pc + 2) % 65536 }

/-- `fn drw_vx_vy_nib` (0xDXYN).  The source only extracts the operands,
advances `pc` by 2 and prints; it never touches the framebuffer,
memory or registers. -/
def drw_vx_vy_nib (s : Chip8) : Chip8 :=
  { s with pc := (s.pc + 2) % 65536 }

/-- `fn skp_vx` (0xEX9E): unimplemented in the source (`TODO`), only
`pc += 2`. -/
def skp_vx (s : Chip8) : Chip8 :=
  { s with pc := (s.pc + 2) % 65536 }

/-- `fn sknp_vx` (0xEXA1): unimplemented in the source (`TODO`), only
`pc += 2`. -/
def sknp_vx (s : Chip8) : Chip8 :=
  { s with pc := (s.pc + 2) % 65536 }

/-- `fn ld_vx_dt` (0xFX07): `v[X] = dt`. -/
def ld_vx_dt (s : Chip8) : Chip8 :=
  let reg := s.instr / 256 % 16
  { s with v := upd s.v reg s.dt, pc := (s.pc + 2) % 65536 }

/-- `fn ld_vx_key` (0xFX0A): unimplemented in the source (`TODO`), only
`pc += 2`; there is no waiting state. -/
def ld_vx_key (s : Chip8) : Chip8 :=
  { s with pc := (s.pc + 2) % 65536 }

/-- `fn ld_dt_vx` (0xFX15): `dt = v[X]`. -/
def ld_dt_vx (s : Chip8) : Chip8 :=
  let reg := s.instr / 256 % 16
  { s with dt := s.v reg, pc := (s.pc + 2) % 65536 }

/-- `fn ld_st_vx` (0xFX18): `st = v[X]`. -/
def ld_st_vx (s : Chip8) : Chip8 :=
  let reg := s.instr / 256 % 16
  { s with st := s.v reg, pc := (s.pc + 2) % 65536 }

/-- `fn add_index_vx` (0xFX1E): `index += v[X]` (u16 wrap). -/
def add_index_vx (s : Chip8) : Chip8 :=
  let reg := s.instr / 256 % 16
  { s with index := (s.index + s.v reg) % 65536, pc := (s.pc + 2) % 65536 }

/-- `fn ld_index_vx_sprite` (0xFX29): unimplemented in the source
(`TODO`), only `pc += 2`. -/
def ld_index_vx_sprite (s : Chip8) : Chip8 :=
  { s with pc := (s.pc + 2) % 65536 }

/-- `fn ld_bcd_vx` (0xFX33): unimplemented in the source (`TODO`), only
`pc += 2`. -/
def ld_bcd_vx (s : Chip8) : Chip8 :=
  { s with pc := (s.pc + 2) % 65536 }

/-- `fn ld_index_imm_vx` (0xFX55): for `i in 0..reg+1`:
`memory[index] = v[i]; index += 1`; then one more `index += 1`
and `pc += 2`. -/
def ld_index_imm_vx (s : Chip8) : Chip8 :=
  let reg := s.instr / 256 % 16
  let t := (List.range (reg + 1)).foldl
    (fun t i => { t with memory := upd t.memory t.index (t.v i),
                         index := (t.index + 1) % 65536 }) s
  { t with index := (t.index + 1) % 65536, pc := (t.pc + 2) % 65536 }

/-- `fn ld_vx_index_imm` (0xFX65): for `i in 0..reg+1`:
`v[i] = memory[index]; index += 1`; then one more `index += 1`
and `pc += 2`. -/
def ld_vx_index_imm (s : Chip8) : Chip8 :=
  let reg := s.instr / 256 % 16
  let t := (List.range (reg + 1)).foldl
    (fun t i => { t with v := upd t.v i (t.memory t.index),
                         index := (t.index + 1) % 65536 }) s
  { t with index := (t.index + 1) % 65536, pc := (t.pc + 2) % 65536 }

end Chip8

/-- Top nibble of an instruction word, `instr & 0xF000` divided down to
the family index: the value `execute_cycle` matches on. -/
def topNibble (i : Nat) : Nat := i / 4096 % 16

/-- The fetch step of `execute_cycle`:
`(memory[pc] as u16) << 8 | memory[pc + 1] as u16`. -/
def fetch (s : Chip8) : Nat :=
  (s.memory s.pc) <<< 8 ||| s.memory ((s.pc + 1) % 65536)

/-- `fn execute_cycle` in src/chip8.rs: fetch the instruction word at
`pc`, store it in `instr`, dispatch on the top nibble (with secondary
selectors for families 0x0, 0x8, 0xE, 0xF; unrecognized selectors only
print), with a top-level fallback arm that does `pc += 2`; finally
`if dt > 0 { dt -= 1 }`.  The `rnd` parameter stands for
`rand::random::<u8>()`. -/
def execute_cycle (rnd : Nat) (s0 : Chip8) : Chip8 :=
  let i := fetch s0
  let s : Chip8 := { s0 with instr := i }
  let t :=
    if topNibble i = 0x0 then
      if i = 0x00E0 then s.cls
      else if i = 0x00EE then s.ret
      else s
    else if topNibble i = 0x1 then s.jp_addr
    else if topNibble i = 0x2 then s.call_addr
    else if topNibble i = 0x3 then s.se_vx_byte
    else if topNibble i = 0x4 then s.sne_vx_byte
    else if topNibble i = 0x5 then s.se_vx_vy
    else if topNibble i = 0x6 then s.ld_vx_byte
    else if topNibble i = 0x7 then s.add_vx_byte
    else if topNibble i = 0x8 then
      if i % 16 = 0x0 then s.ld_vx_vy
      else if i % 16 = 0x1 then s.or_vx_vy
      else if i % 16 = 0x2 then s.and_vx_vy
      else if i % 16 = 0x3 then s.xor_vx_vy
      else if i % 16 = 0x4 then s.add_vx_vy
      else if i % 16 = 0x5 then s.sub_vx_vy
      else if i % 16 = 0x6 then s.shr_vx
      else if i % 16 = 0x7 then s.subn_vx_vy
      else if i % 16 = 0xE then s.shl_vx
      else s
    else if topNibble i = 0x9 then s.sne_vx_vy
    else if topNibble i = 0xA then s.ld_index_addr
    else if topNibble i = 0xB then s.jp_v0_addr
    else if topNibble i = 0xC then s.rnd_vx_byte rnd
    else if topNibble i = 0xD then s.drw_vx_vy_nib
    else if topNibble i = 0xE then
      if i % 256 = 0x9E then s.skp_vx
      else if i % 256 = 0xA1 then s.sknp_vx
      else s
    else if topNibble i = 0xF then
      if i % 256 = 0x07 then s.ld_vx_dt
      else if i % 256 = 0x0A then s.ld_vx_key
      else if i % 256 = 0x15 then s.ld_dt_vx
      else if i % 256 = 0x18 then s.ld_st_vx
      else if i % 256 = 0x1E then s.add_index_vx
      else if i % 256 = 0x29 then s.ld_index_vx_sprite
      else if i % 256 = 0x33 then s.ld_bcd_vx
      else if i % 256 = 0x55 then s.ld_index_imm_vx
      else if i % 256 = 0x65 then s.ld_vx_index_imm
      else s
    else { s with pc := (s.pc + 2) % 65536 }
  if t.dt > 0 then { t with dt := t.dt - 1 } else t

/-! ## Concrete machine states used to evaluate the embedded code -/

/-- A freshly zeroed machine with `pc = 0x200`, as built by `Chip8::new()`. -/
def zeroState : Chip8 :=
  { memory := fun _ => 0, pc := 0x200, instr := 0, v := fun _ => 0,
    index := 0, stack := fun _ => 0, sp := 0, dt := 0, st := 0,
    fb := fun _ => 0 }

/-- State poised to run `ADD V0, V1` (0x8014) with `V0 = 0xFF`, `V1 = 0x01`. -/
def addExState : Chip8 :=
  { zeroState with instr := 0x8014,
                   v := upd (upd zeroState.v 0 0xFF) 1 0x01 }

/-- State with two consecutive `DRW V0, V0, 1` instructions (0xD001) at
`0x200` and `0x202`, a one-pixel sprite row `0x80` at `I = 0x300`. -/
def drwState : Chip8 :=
  { zeroState with
      memory := upd (upd (upd (upd (upd zeroState.memory
                    0x200 0xD0) 0x201 0x01) 0x202 0xD0) 0x203 0x01) 0x300 0x80,
      index := 0x300 }

/-- State poised to execute `LD V0, K` (0xF00A) at `pc = 0x200`. -/
def keyState : Chip8 :=
  { zeroState with memory := upd (upd zeroState.memory 0x200 0xF0) 0x201 0x0A }

/-- State with `delay = 60`, `sound = 60` and a non-timer instruction
(the zeroed word 0x0000) at `pc`. -/
def dtState : Chip8 :=
  { zeroState with dt := 60, st := 60 }

/-- State poised to run `SUB V0, V1` (0x8015) with `V0 = 0x05`, `V1 = 0x02`. -/
def subExState : Chip8 :=
  { zeroState with instr := 0x8015,
                   v := upd (upd zeroState.v 0 0x05) 1 0x02 }

/-- State poised to run `CALL 0x400` (0x2400) with `pc = 0x300`, `sp = 0`
and an all-zero stack. -/
def callState : Chip8 :=
  { zeroState with pc := 0x300, instr := 0x2400 }

/-- State poised to run `RET` with `sp = 2`, `stack[1] = 0x400`,
`stack[2] = 0x500`. -/
def retState : Chip8 :=
  { zeroState with instr := 0x00EE, sp := 2,
                   stack := upd (upd zeroState.stack 1 0x400) 2 0x500 }

/-- State poised to execute `JP V0, 0xFFF` (0xBFFF) with `V0 = 0xFF`. -/
def jpState : Chip8 :=
  { zeroState with memory := upd (upd zeroState.memory 0x200 0xBF) 0x201 0xFF,
                   v := upd zeroState.v 0 0xFF }

/-- State poised to run `LD [I], V0` (0xF055) with `I = 0x300`, `V0 = 0xAB`. -/
def stState : Chip8 :=
  { zeroState with instr := 0xF055, index := 0x300,
                   v := upd zeroState.v 0 0xAB }

/-- State poised to run `LD V0, [I]` (0xF065) with `I = 0x300`,
`mem[0x300] = 0xCD`. -/
def ldState : Chip8 :=
  { zeroState with instr := 0xF065, index := 0x300,
                   memory := upd zeroState.memory 0x300 0xCD }

/-! ## Claim theorems -/

/-- C1: the claim says `ADD Vx, Vy` stores `(V[X] + V[Y]) mod 256`
(wrapping) and in particular `V[X]=0xFF, V[Y]=0x01` yields `V[X]'=0x00`
with `V[F]=1`.  The code instead saturates: at that very input it leaves
`V[X]' = 0xFF` (with `V[F] = 1`), contradicting the claimed wrap. -/
theorem add_vx_vy_saturates_not_wraps :
    (Chip8.add_vx_vy addExState).v 0 = 0xFF ∧
    (Chip8.add_vx_vy addExState).v 0xF = 1 := by
  decide

/-- C2: the claim says `DRW` XORs sprite bits into the framebuffer and
reports collisions in `V[F]`.  The code's `drw_vx_vy_nib` is a stub:
after one `DRW V0,V0,1` with a sprite row `0x80` at `I` the pixel at
cell 0 is still clear, and after the second identical `DRW` the
collision flag is still 0 (the claim requires `V[F] = 1` there); the
stub changes only `pc`. -/
theorem drw_vx_vy_nib_is_stub :
    (execute_cycle 0 drwState).fb 0 = 0 ∧
    (execute_cycle 0 (execute_cycle 0 drwState)).v 0xF = 0 ∧
    (execute_cycle 0 (execute_cycle 0 drwState)).pc = 0x204 ∧
    (∀ s : Chip8, (Chip8.drw_vx_vy_nib s).fb = s.fb ∧
      (Chip8.drw_vx_vy_nib s).v = s.v ∧
      (Chip8.drw_vx_vy_nib s).pc = (s.pc + 2) % 65536) :=
  ⟨by decide, by decide, by decide, fun s => ⟨rfl, rfl, rfl⟩⟩

/-- C3: the claim says `LD Vx, K` does not advance `PC` and enters a
`WaitingForKey` state.  The code's `ld_vx_key` is a stub: executing
0xF00A advances `PC` from 0x200 to 0x202 immediately and writes no
register; no waiting state exists in the code. -/
theorem ld_vx_key_stub_advances_pc :
    (execute_cycle 0 keyState).pc = 0x202 ∧
    (execute_cycle 0 keyState).v 0 = 0 := by
  decide

/-- C4: the claim says timers are decremented only by `tick_timers()`
and never by `cycle()`.  The code has no `tick_timers()` at all and
`execute_cycle` itself decrements the delay timer: with `delay = 60`
one cycle of a non-timer instruction leaves `delay = 59` (the sound
timer, never decremented anywhere, stays 60). -/
theorem cycle_decrements_delay_timer :
    (execute_cycle 0 dtState).dt = 59 ∧
    (execute_cycle 0 dtState).st = 60 := by
  decide

/-- C5: the claim says `SUB Vx, Vy` sets `V[F] = 1` exactly when
`V[X] >= V[Y]`, so `V[X]=0x05, V[Y]=0x02` must give `V[F] = 1`.  The
code sets `V[F] = 1` only when the wrapping difference is zero, so at
that input it produces `V[X]' = 3` but `V[F] = 0`. -/
theorem sub_vx_vy_flag_wrong :
    (Chip8.sub_vx_vy subExState).v 0 = 3 ∧
    (Chip8.sub_vx_vy subExState).v 0xF = 0 := by
  decide

/-- C6: the claim says `push(addr)` stores at index `SP` and then
increments, `pop()` decrements and then reads, and both report
`StackOverflow`/`StackUnderflow` errors.  The code has no such errors
and the order is inverted: `CALL` from `sp = 0` increments first and
stores the return address at `stack[1]`, leaving `stack[0]` untouched,
and `RET` with `sp = 2` reads `stack[2]` (the claim's `pop` would
return `stack[1] = 0x400`) before decrementing. -/
theorem call_ret_index_off_by_one :
    (Chip8.call_addr callState).sp = 1 ∧
    (Chip8.call_addr callState).stack 1 = 0x300 ∧
    (Chip8.call_addr callState).stack 0 = 0 ∧
    (Chip8.ret retState).pc = 0x500 ∧
    (Chip8.ret retState).sp = 1 := by
  decide

/-- C7: the claim says `PC < 4096` after every successful `cycle()`,
with out-of-range addresses reported as `MemoryFault`.  Executing
`JP V0, 0xFFF` with `V0 = 0xFF` sets `PC = 0x10FE ≥ 4096` and no fault
is reported (the next fetch would index `memory` out of bounds). -/
theorem jp_v0_pc_exceeds_memory :
    (execute_cycle 0 jpState).pc = 0x10FE ∧
    4096 ≤ (execute_cycle 0 jpState).pc := by
  decide

/-- C8: the claim says `LD [I], Vx` and `LD Vx, [I]` leave the index
register unchanged.  The code increments `index` once per transferred
register plus once more: with `X = 0` and `I = 0x300` both
instructions finish with `index = 0x302` (not 0x300 as claimed, nor
0x301 as the code's own comment says), though the byte/register
transfer itself does happen. -/
theorem ld_index_imm_mutates_index :
    (Chip8.ld_index_imm_vx stState).memory 0x300 = 0xAB ∧
    (Chip8.ld_index_imm_vx stState).index = 0x302 ∧
    (Chip8.ld_vx_index_imm ldState).v 0 = 0xCD ∧
    (Chip8.ld_vx_index_imm ldState).index = 0x302 := by
  decide

/-! ## C9: SE/SNE skip arithmetic -/

/-- C9: for every register index `x < 16`, every immediate `nn < 256` and
every pair of states holding the corresponding `SE Vx, NN` (0x3XNN) /
`SNE Vx, NN` (0x4XNN) instruction words, `PC` advances by exactly 4 when
the predicate (equality for SE, inequality for SNE) holds and by exactly
2 otherwise. -/
theorem se_sne_skip_arith (x nn : Nat) (s t : Chip8)
    (hx : x < 16) (hnn : nn < 256)
    (hs : s.instr = 0x3000 + 256 * x + nn)
    (ht : t.instr = 0x4000 + 256 * x + nn)
    (hps : s.pc + 4 < 65536) (hpt : t.pc + 4 < 65536) :
    (Chip8.se_vx_byte s).pc = (if s.v x = nn then s.pc + 4 else s.pc + 2) ∧
    (Chip8.sne_vx_byte t).pc = (if t.v x = nn then t.pc + 2 else t.pc + 4) := by
  have hreg_s : s.instr / 256 % 16 = x := by rw [hs]; omega
  have hbyte_s : s.instr % 256 = nn := by rw [hs]; omega
  have hreg_t : t.instr / 256 % 16 = x := by rw [ht]; omega
  have hbyte_t : t.instr % 256 = nn := by rw [ht]; omega
  constructor
  · by_cases h : s.v x = nn <;>
      simp [Chip8.se_vx_byte, hreg_s, hbyte_s, h] <;> omega
  · by_cases h : t.v x = nn <;>
      simp [Chip8.sne_vx_byte, hreg_t, hbyte_t, h] <;> omega

/-- State holding `SE V1, 0x42` with `V1 = 0x42`. -/
def seState : Chip8 :=
  { zeroState with instr := 0x3142, v := upd zeroState.v 1 0x42 }

/-- State holding `SNE V1, 0x42` with `V1 = 0x42`. -/
def sneState : Chip8 :=
  { zeroState with instr := 0x4142, v := upd zeroState.v 1 0x42 }

/-- Witness for C9 at `x = 1`, `nn = 0x42`, with `V1 = 0x42` in both
states: SE takes the skip (+4) and SNE does not (+2). -/
theorem se_sne_skip_arith_witness :
    (1 : Nat) < 16 ∧ (0x42 : Nat) < 256 ∧
    seState.instr = 0x3000 + 256 * 1 + 0x42 ∧
    sneState.instr = 0x4000 + 256 * 1 + 0x42 ∧
    seState.pc + 4 < 65536 ∧ sneState.pc + 4 < 65536 ∧
    (Chip8.se_vx_byte seState).pc =
      (if seState.v 1 = 0x42 then seState.pc + 4 else seState.pc + 2) ∧
    (Chip8.sne_vx_byte sneState).pc =
      (if sneState.v 1 = 0x42 then sneState.pc + 2 else sneState.pc + 4) :=
  ⟨by decide, by decide, by decide, by decide, by decide, by decide,
   (se_sne_skip_arith 1 0x42 seState sneState (by decide) (by decide)
     (by decide) (by decide) (by decide) (by decide)).1,
   (se_sne_skip_arith 1 0x42 seState sneState (by decide) (by decide)
     (by decide) (by decide) (by decide) (by decide)).2⟩

/-! ## C10: unrecognized secondary selectors -/

/-- An instruction word whose top nibble selects family 0x0, 0x8, 0xE or
0xF but whose secondary selector matches none of the operations listed
in `execute_cycle`'s inner dispatch. -/
def unmatchedSelector (i : Nat) : Bool :=
  (topNibble i == 0x0 && i != 0x00E0 && i != 0x00EE) ||
  (topNibble i == 0x8 && i % 16 != 0x0 && i % 16 != 0x1 && i % 16 != 0x2 &&
    i % 16 != 0x3 && i % 16 != 0x4 && i % 16 != 0x5 && i % 16 != 0x6 &&
    i % 16 != 0x7 && i % 16 != 0xE) ||
  (topNibble i == 0xE && i % 256 != 0x9E && i % 256 != 0xA1) ||
  (topNibble i == 0xF && i % 256 != 0x07 && i % 256 != 0x0A &&
    i % 256 != 0x15 && i % 256 != 0x18 && i % 256 != 0x1E &&
    i % 256 != 0x29 && i % 256 != 0x33 && i % 256 != 0x55 && i % 256 != 0x65)

/-- C10: when the fetched word falls in family 0x0, 0x8, 0xE or 0xF with
an unrecognized secondary selector, `execute_cycle` changes only the
stored current-instruction field and the delay timer — `pc`, registers,
stack, memory and framebuffer are untouched — so the next call fetches
the very same word; and the top-level fallback arm is unreachable since
the top nibble always lies in the 16 enumerated families. -/
theorem execute_cycle_unknown_preserves :
    (∀ rnd s, unmatchedSelector (fetch s) = true →
      execute_cycle rnd s =
        { s with instr := fetch s,
                 dt := if s.dt > 0 then s.dt - 1 else s.dt } ∧
      fetch (execute_cycle rnd s) = fetch s) ∧
    (∀ i, topNibble i < 16) := by
  constructor
  · intro rnd s h
    have hmain : execute_cycle rnd s =
        { s with instr := fetch s,
                 dt := if s.dt > 0 then s.dt - 1 else s.dt } := by
      simp only [unmatchedSelector, Bool.or_eq_true, Bool.and_eq_true,
        beq_iff_eq, bne_iff_ne, ne_eq, and_assoc, or_assoc] at h
      rcases h with ⟨h0, hne1, hne2⟩ | ⟨h8, ha, hb, hc, hd, he, hf, hg, hh, hi⟩ |
        ⟨hE, he1, he2⟩ | ⟨hF, hf1, hf2, hf3, hf4, hf5, hf6, hf7, hf8, hf9⟩ <;>
      · unfold execute_cycle
        by_cases hdt : s.dt > 0 <;>
          simp_all
    exact ⟨hmain, by rw [hmain]; rfl⟩
  · intro i
    exact Nat.mod_lt _ (by omega)

/-- Witness for C10 on the freshly zeroed machine, whose fetched word
0x0000 lies in family 0x0 with an unrecognized selector; the fallback
part is instanced at the word 0xD001. -/
theorem execute_cycle_unknown_preserves_witness :
    unmatchedSelector (fetch zeroState) = true ∧
    (execute_cycle 0 zeroState =
       { zeroState with instr := fetch zeroState,
                        dt := if zeroState.dt > 0 then zeroState.dt - 1
                              else zeroState.dt } ∧
     fetch (execute_cycle 0 zeroState) = fetch zeroState) ∧
    topNibble 0xD001 < 16 :=
  ⟨by decide, execute_cycle_unknown_preserves.1 0 zeroState (by decide),
   execute_cycle_unknown_preserves.2 0xD001⟩
